import Mathlib

/-!
Shallow embedding of the TG_Bot storefront (src/bot.py and src/tg_bot.py).

The repository contains two revisions of the same Telegram shop bot.  The
parts relevant to the claims are embedded here:

* `check_bitcoin_payment` — the payment-verification function (identical
  logic in both files; bot.py uses Python floats, tg_bot.py uses Decimal;
  both are modelled exactly as rationals).  The HTTP call to
  blockchain.info is modelled as an `Except String AddrData` oracle
  response: `Except.error` stands for any raised exception (network
  failure, non-JSON body, missing keys), `Except.ok` for a parsed reply.
* `get_bitcoin_rate` — the 5-minute rate cache of tg_bot.py, with the
  process-wide cache dictionary passed explicitly and the ticker call
  modelled as an `Except String ℚ` oracle response.
* namespace `TG` — the order/settlement data model and handlers of
  src/tg_bot.py: the `locations`/`orders` tables, the FSM session,
  `process_location_selection` (which opens a transaction, reads the
  location row `FOR UPDATE`, rejects `quantity <= 0`, quotes the price and
  enters `waiting_payment`) and `check_payment` (which verifies the
  payment and then, inside one transaction, decrements the quantity and
  inserts the order row; `state.finish()` sits in the `finally` block and
  therefore runs on every path).  Statement-level failures of the two SQL
  writes are injected through `StmtFail`; because they run inside
  `conn.transaction()`, any failure rolls the database back.
  `handle_user_event` models the aiogram dispatcher: a plain message is
  routed to `check_payment` only while the session is in
  `waiting_payment`, and a location callback is routed to
  `process_location_selection` only while no FSM state is set.
* namespace `BotPy` — the same pieces of src/bot.py.  Its `check_payment`
  has no `conn.transaction()` wrapper: the `UPDATE` and the `INSERT` are
  separate autocommitted statements, so a failure of the `INSERT` leaves
  the already-executed `UPDATE` in place.  `BotPy` also carries the
  admin add-product conversation machine (`adminTransition`, built from
  the per-step handlers `add_product_name`, `add_product_description`,
  `add_product_price`, `add_product_content`).  Python's
  `float(message.text)` parse is modelled by the `numVal : Option ℚ`
  component of `TextInput`.

Machine reals (Python float / Decimal) are modelled as exact rationals;
timestamps as integer seconds.
-/

/-- One entry of a transaction's `out` list in the blockchain.info
`rawaddr` reply: a destination address and a value in satoshi. -/
structure TxOutput where
  addr : String
  value : ℚ
deriving DecidableEq

/-- One transaction of the `rawaddr` reply: a unix timestamp and its
outputs. -/
structure AddrTx where
  time : Int
  out : List TxOutput
deriving DecidableEq

/-- The parsed `rawaddr` reply: `total_received` (read but unused by the
code) and the transaction list. -/
structure AddrData where
  total_received : ℚ
  txs : List AddrTx
deriving DecidableEq

/-- `check_bitcoin_payment(address, amount)` of both files (bot.py lines
136-156, tg_bot.py lines 108-128).  Scans the transactions of the reply;
a transaction whose age exceeds 7200 seconds is skipped (`continue`);
otherwise an output counts when its address equals the queried address
and its value divided by 10^8 is at least the expected amount.  Every
exception — the request failing, a non-JSON reply, a missing key — is
caught and turns into `False`. -/
def check_bitcoin_payment (now : Int) (address : String) (amount : ℚ)
    (resp : Except String AddrData) : Bool :=
  match resp with
  | Except.error _ => false
  | Except.ok data =>
      data.txs.any fun tx =>
        if 7200 < now - tx.time then false
        else tx.out.any fun o =>
          o.addr == address && decide (amount ≤ o.value / 100000000)

/-- The process-wide `bitcoin_rate_cache` dictionary of tg_bot.py
(lines 42-46): an optional cached rate and an optional update time. -/
structure RateCache where
  rate : Option ℚ
  last_updated : Option Int
deriving DecidableEq

/-- Result of one `get_bitcoin_rate()` call: the returned value (`none`
models Python `None`), the cache as left behind, and whether the ticker
oracle was called. -/
structure RateFetch where
  rate : Option ℚ
  cache : RateCache
  oracleCalled : Bool
deriving DecidableEq

/-- `get_bitcoin_rate()` of tg_bot.py (lines 71-88).  If the cache was
updated less than 300 seconds ago its rate is returned without touching
the oracle; otherwise the ticker is fetched: on success the rate is
stored with the current time and returned, on any exception `None` is
returned and the cache is left unchanged. -/
def get_bitcoin_rate (now : Int) (oracle : Except String ℚ) (c : RateCache) :
    RateFetch :=
  match c.last_updated with
  | some t =>
      if now - t < 300 then ⟨c.rate, c, false⟩
      else
        match oracle with
        | Except.ok r => ⟨some r, ⟨some r, some now⟩, true⟩
        | Except.error _ => ⟨none, c, true⟩
  | none =>
      match oracle with
      | Except.ok r => ⟨some r, ⟨some r, some now⟩, true⟩
      | Except.error _ => ⟨none, c, true⟩

/-- The cache freshness condition of `get_bitcoin_rate`: it was updated
less than 300 seconds (5 minutes) before `now`. -/
def rateFresh (now : Int) (c : RateCache) : Prop :=
  ∃ t, c.last_updated = some t ∧ now - t < 300

/-- Outcome reported to the user by a `check_payment` invocation. -/
inductive PayOutcome where
  | dbError
  | notDetected
  | notFound
  | settleError
  | settled
deriving DecidableEq

/-- Failure injection for the two SQL writes of a settlement: whether the
`UPDATE locations` statement raises and whether the `INSERT INTO orders`
statement raises. -/
structure StmtFail where
  failUpdate : Bool
  failInsert : Bool
deriving DecidableEq

namespace TG

/-- A row of the `products` table of tg_bot.py (the columns the
settlement flow reads). -/
structure Product where
  id : Nat
  price_btc : ℚ
  price_rub : Option ℚ
  content : String
deriving DecidableEq

/-- A row of the `locations` table: per-product named stock with an
integer quantity (the schema has no non-negativity constraint). -/
structure Location where
  id : Nat
  product_id : Nat
  name : String
  quantity : Int
deriving DecidableEq

/-- A row of the `orders` table of tg_bot.py. -/
structure Order where
  product_id : Nat
  location_id : Nat
  user_id : Nat
  bitcoin_address : String
  amount_btc : ℚ
  amount_rub : ℚ
  exchange_rate : ℚ
  content : String
  is_paid : Bool
deriving DecidableEq

/-- The committed database state the claims are about. -/
structure DB where
  products : List Product
  locations : List Location
  orders : List Order
deriving DecidableEq

/-- `SELECT ... FROM locations WHERE id = $1`. -/
def get_location (db : DB) (lid : Nat) : Option Location :=
  db.locations.find? fun l => l.id == lid

/-- `SELECT ... FROM products WHERE id = $1`. -/
def get_product (db : DB) (pid : Nat) : Option Product :=
  db.products.find? fun p => p.id == pid

/-- `UPDATE locations SET quantity = quantity + delta WHERE id = $1`. -/
def update_location_quantity (db : DB) (lid : Nat) (delta : Int) : DB :=
  { db with
    locations := db.locations.map fun l =>
      if l.id == lid then { l with quantity := l.quantity + delta } else l }

/-- `INSERT INTO orders ...`. -/
def insert_order (db : DB) (o : Order) : DB :=
  { db with orders := db.orders ++ [o] }

/-- The FSM fields `state.update_data(...)` collects at location
selection (tg_bot.py lines 407-416). -/
structure OrderData where
  product_id : Nat
  location_id : Nat
  payment_address : String
  amount_btc : ℚ
  amount_rub : ℚ
  exchange_rate : ℚ
  product_content : String
deriving DecidableEq

/-- The per-user FSM state relevant to the purchase flow: either no
state is set, or `UserStates.waiting_payment` with its collected data. -/
inductive UserSess where
  | idle
  | waitingPayment (data : OrderData)
deriving DecidableEq

/-- The configured `BITCOIN_WALLET` address (an environment constant). -/
def BITCOIN_WALLET : String := "BITCOIN-WALLET"

/-- The order row `check_payment` inserts (tg_bot.py lines 464-477):
every column is taken from the FSM data collected at selection time, the
buyer from the message, `is_paid` set to TRUE. -/
def mkOrder (userId : Nat) (d : OrderData) : Order :=
  ⟨d.product_id, d.location_id, userId, d.payment_address,
    d.amount_btc, d.amount_rub, d.exchange_rate, d.product_content, true⟩

/-- `check_payment` of tg_bot.py (lines 442-504), the settlement
handler.  If the DB connection fails, the handler reports and finishes
the state.  Otherwise it calls `check_bitcoin_payment`; when no payment
is found it reports and returns — and the `finally` block still runs
`state.finish()`.  When a payment is found it opens `conn.transaction()`
and executes the quantity decrement and the order insert; no
availability re-check happens inside the transaction.  If either
statement raises, the transaction rolls back (no partial effect), the
exception is caught and reported.  On every path `conn.close()` and
`state.finish()` run last. -/
def check_payment (db : DB) (userId : Nat) (d : OrderData) (now : Int)
    (resp : Except String AddrData) (connOk : Bool) (f : StmtFail) :
    DB × UserSess × PayOutcome :=
  if connOk = false then (db, UserSess.idle, PayOutcome.dbError)
  else
    let is_paid := check_bitcoin_payment now d.payment_address d.amount_btc resp
    if is_paid = false then (db, UserSess.idle, PayOutcome.notDetected)
    else if f.failUpdate || f.failInsert then
      (db, UserSess.idle, PayOutcome.settleError)
    else
      (insert_order (update_location_quantity db d.location_id (-1)) (mkOrder userId d),
        UserSess.idle, PayOutcome.settled)

/-- The world a user event acts on: the database, the process-wide rate
cache, and the user's FSM session. -/
structure World where
  db : DB
  cache : RateCache
  sess : UserSess
deriving DecidableEq

/-- `process_location_selection` of tg_bot.py (lines 371-440).  Inside a
transaction the location row is read joined with its product
(`FOR UPDATE`); a missing row or `quantity <= 0` aborts.  Then
`get_bitcoin_rate()` is consulted (its cache effect persists); with no
rate the handler aborts.  Otherwise the amounts are quoted — from
`price_rub` at the current rate when set, else from `price_btc` — the
collected fields are stored and `waiting_payment` is entered.  Nothing
is written to the database. -/
def process_location_selection (w : World) (lid : Nat) (now : Int)
    (rateOracle : Except String ℚ) (connOk : Bool) : World :=
  if connOk = false then w
  else
    match get_location w.db lid with
    | none => w
    | some l =>
      if l.quantity ≤ 0 then w
      else
        match get_product w.db l.product_id with
        | none => w
        | some p =>
          let r := get_bitcoin_rate now rateOracle w.cache
          match r.rate with
          | none => { w with cache := r.cache }
          | some rate =>
            let amounts : ℚ × ℚ :=
              match p.price_rub with
              | some rub => (rub / rate, rub)
              | none => (p.price_btc, p.price_btc * rate)
            { db := w.db, cache := r.cache,
              sess := UserSess.waitingPayment
                ⟨l.product_id, lid, BITCOIN_WALLET, amounts.1, amounts.2, rate,
                  p.content⟩ }

/-- An inbound user event: a plain text message or a `location_...`
callback button press. -/
inductive Event where
  | message (txt : String)
  | locationCallback (lid : Nat)

/-- One inbound event together with the environment of its handling:
the wall clock, the two oracle replies, whether the DB connection
succeeds, and the injected statement failures. -/
structure EventCtx where
  ev : Event
  now : Int
  rateOracle : Except String ℚ
  btcOracle : Except String AddrData
  connOk : Bool
  f : StmtFail

/-- The aiogram dispatcher, restricted to the purchase flow.  A handler
registered with `state=UserStates.waiting_payment` receives every text
message while that state is set; handlers registered without a state
filter (the location callback among them) only fire while no state is
set.  Every other combination leaves the world untouched (the remaining
handlers are read-only). -/
def handle_user_event (w : World) (userId : Nat) (c : EventCtx) : World :=
  match w.sess, c.ev with
  | UserSess.waitingPayment d, Event.message _ =>
      let r := check_payment w.db userId d c.now c.btcOracle c.connOk c.f
      ⟨r.1, w.cache, r.2.1⟩
  | UserSess.idle, Event.locationCallback lid =>
      process_location_selection w lid c.now c.rateOracle c.connOk
  | _, _ => w

/-- A sequence of inbound events for one user, handled in order. -/
def runEvents (w : World) (userId : Nat) (evs : List EventCtx) : World :=
  evs.foldl (fun w c => handle_user_event w userId c) w

/-- `evs` contains only plain text messages (no callback presses). -/
def textOnly (evs : List EventCtx) : Prop :=
  ∀ c ∈ evs, ∃ m, c.ev = Event.message m

end TG

namespace BotPy

/-- A row of the `products` table of bot.py (the columns the settlement
flow reads). -/
structure Product where
  id : Nat
  price : ℚ
  content : String
deriving DecidableEq

/-- A row of the `locations` table of bot.py. -/
structure Location where
  id : Nat
  product_id : Nat
  name : String
  quantity : Int
deriving DecidableEq

/-- A row of the `orders` table of bot.py. -/
structure Order where
  product_id : Nat
  location_id : Nat
  user_id : Nat
  bitcoin_address : String
  amount : ℚ
  content : String
  is_paid : Bool
deriving DecidableEq

/-- The committed database state of bot.py. -/
structure DB where
  products : List Product
  locations : List Location
  orders : List Order
deriving DecidableEq

/-- `SELECT ... FROM locations WHERE id = $1`. -/
def get_location (db : DB) (lid : Nat) : Option Location :=
  db.locations.find? fun l => l.id == lid

/-- `SELECT ... FROM products WHERE id = $1`. -/
def get_product (db : DB) (pid : Nat) : Option Product :=
  db.products.find? fun p => p.id == pid

/-- `UPDATE locations SET quantity = quantity + delta WHERE id = $1`. -/
def update_location_quantity (db : DB) (lid : Nat) (delta : Int) : DB :=
  { db with
    locations := db.locations.map fun l =>
      if l.id == lid then { l with quantity := l.quantity + delta } else l }

/-- `INSERT INTO orders ...`. -/
def insert_order (db : DB) (o : Order) : DB :=
  { db with orders := db.orders ++ [o] }

/-- The joined read of bot.py's `check_payment` (lines 382-387):
`SELECT p.content FROM products p JOIN locations l ON p.id = l.product_id
WHERE l.id = $1`. -/
def lookup_content (db : DB) (lid : Nat) : Option String :=
  match get_location db lid with
  | none => none
  | some l =>
    match get_product db l.product_id with
    | none => none
    | some p => some p.content

/-- The FSM fields collected by bot.py's `process_location_selection`
(lines 349-356). -/
structure OrderData where
  product_id : Nat
  location_id : Nat
  payment_address : String
  amount : ℚ
deriving DecidableEq

/-- The per-user FSM state of bot.py's purchase flow. -/
inductive UserSess where
  | idle
  | waitingPayment (data : OrderData)
deriving DecidableEq

/-- `check_payment` of bot.py (lines 364-439).  Unlike tg_bot.py there
is NO `conn.transaction()` wrapper: the content read, the quantity
`UPDATE` and the order `INSERT` are separate autocommitted statements.
A failure of the `INSERT` therefore leaves the already-committed
`UPDATE` in place.  As in tg_bot.py, `state.finish()` runs in the
`finally` block on every path. -/
def check_payment (db : DB) (userId : Nat) (d : OrderData) (now : Int)
    (resp : Except String AddrData) (connOk : Bool) (f : StmtFail) :
    DB × UserSess × PayOutcome :=
  if connOk = false then (db, UserSess.idle, PayOutcome.dbError)
  else
    let is_paid := check_bitcoin_payment now d.payment_address d.amount resp
    if is_paid = false then (db, UserSess.idle, PayOutcome.notDetected)
    else
      match lookup_content db d.location_id with
      | none => (db, UserSess.idle, PayOutcome.notFound)
      | some content =>
        if f.failUpdate then (db, UserSess.idle, PayOutcome.settleError)
        else
          let db1 := update_location_quantity db d.location_id (-1)
          if f.failInsert then (db1, UserSess.idle, PayOutcome.settleError)
          else
            (insert_order db1
                ⟨d.product_id, d.location_id, userId, d.payment_address,
                  d.amount, content, true⟩,
              UserSess.idle, PayOutcome.settled)

/-- The steps of bot.py's `AdminStates` group plus the stateless default
(`idle`, i.e. no FSM state set). -/
inductive AdminStep where
  | idle
  | waitingCategoryName
  | waitingProductName
  | waitingProductDescription
  | waitingProductPrice
  | waitingProductContent
  | waitingProductLocations
  | waitingAboutText
deriving DecidableEq

/-- The fields the add-product flow accumulates in the FSM data. -/
structure AdminData where
  category_id : Option Nat
  name : Option String
  description : Option String
  price : Option ℚ
  content : Option String
deriving DecidableEq

/-- The FSM data after `state.finish()`: everything discarded. -/
def emptyAdminData : AdminData := ⟨none, none, none, none, none⟩

/-- A text message as the step handlers see it: the raw text and the
result of Python's `float(message.text)` — `none` when the parse raises
`ValueError`, `some q` (modelled exactly as a rational) otherwise. -/
structure TextInput where
  text : String
  numVal : Option ℚ
deriving DecidableEq

/-- Handler `add_product_name` (bot.py lines 616-620): stores the text
as the name and advances.  No validation, no storage access. -/
def add_product_name (d : AdminData) (inp : TextInput) :
    AdminStep × AdminData × Bool :=
  (AdminStep.waitingProductDescription, { d with name := some inp.text }, false)

/-- Handler `add_product_description` (bot.py lines 622-626). -/
def add_product_description (d : AdminData) (inp : TextInput) :
    AdminStep × AdminData × Bool :=
  (AdminStep.waitingProductPrice, { d with description := some inp.text }, false)

/-- Handler `add_product_price` (bot.py lines 628-639): `float(text)`;
a parse failure or a value `<= 0` raises `ValueError`, which is caught
and re-prompts the same step with nothing changed and nothing written;
a valid price is stored and the flow advances to the content step. -/
def add_product_price (d : AdminData) (inp : TextInput) :
    AdminStep × AdminData × Bool :=
  match inp.numVal with
  | none => (AdminStep.waitingProductPrice, d, false)
  | some p =>
      if p ≤ 0 then (AdminStep.waitingProductPrice, d, false)
      else (AdminStep.waitingProductContent, { d with price := some p }, false)

/-- Handler `add_product_content` (bot.py lines 641-645). -/
def add_product_content (d : AdminData) (inp : TextInput) :
    AdminStep × AdminData × Bool :=
  (AdminStep.waitingProductLocations, { d with content := some inp.text }, false)

/-- The admin conversation machine assembled from bot.py's per-step
handlers; the third component records whether the step wrote to
storage.  The terminal steps (category name, product locations, about
text) insert/update and then `state.finish()` in their `finally`
blocks, discarding the collected data; when the DB connection fails
they finish without writing.  bot.py registers no handler that leaves
a non-idle step other than these. -/
def adminTransition (st : AdminStep) (d : AdminData) (inp : TextInput)
    (connOk : Bool) : AdminStep × AdminData × Bool :=
  match st with
  | AdminStep.idle => (AdminStep.idle, d, false)
  | AdminStep.waitingCategoryName =>
      if connOk = false then (AdminStep.idle, emptyAdminData, false)
      else (AdminStep.idle, emptyAdminData, true)
  | AdminStep.waitingProductName => add_product_name d inp
  | AdminStep.waitingProductDescription => add_product_description d inp
  | AdminStep.waitingProductPrice => add_product_price d inp
  | AdminStep.waitingProductContent => add_product_content d inp
  | AdminStep.waitingProductLocations =>
      if connOk = false then (AdminStep.idle, emptyAdminData, false)
      else (AdminStep.idle, emptyAdminData, true)
  | AdminStep.waitingAboutText =>
      if connOk = false then (AdminStep.idle, emptyAdminData, false)
      else (AdminStep.idle, emptyAdminData, true)

end BotPy

/-- Concrete scenario: a catalog with one product (1 BTC, no RUB price)
stocked with two units at one location. -/
def c4DB : TG.DB := ⟨[⟨1, 1, none, "content"⟩], [⟨10, 1, "M", 2⟩], []⟩

/-- Concrete oracle reply: one transaction at time 0 paying 2 BTC
(200000000 satoshi) to the shop wallet — a single qualifying payment. -/
def c4Resp : Except String AddrData :=
  Except.ok ⟨2, [⟨0, [⟨TG.BITCOIN_WALLET, 200000000⟩]⟩]⟩

/-- Event context at time 0 with a working DB, a 100 RUB/BTC ticker and
the fixed oracle reply `c4Resp`, no injected failures. -/
def c4Ctx (e : TG.Event) : TG.EventCtx :=
  ⟨e, 0, Except.ok 100, c4Resp, true, ⟨false, false⟩⟩

/-- The FSM data collected by the location selection in the concrete
scenario. -/
def c4Data : TG.OrderData := ⟨1, 10, TG.BITCOIN_WALLET, 1, 100, 100, "content"⟩

/-- The order row each settlement of the concrete scenario inserts. -/
def c4Order : TG.Order := ⟨1, 10, 7, TG.BITCOIN_WALLET, 1, 100, 100, "content", true⟩

/-- Initial world of the concrete scenario. -/
def c4W0 : TG.World := ⟨c4DB, ⟨none, none⟩, TG.UserSess.idle⟩

/-- World after the first location selection. -/
def c4W1 : TG.World := ⟨c4DB, ⟨some 100, some 0⟩, TG.UserSess.waitingPayment c4Data⟩

/-- World after the first settlement: one unit left, one order. -/
def c4W2 : TG.World :=
  ⟨⟨[⟨1, 1, none, "content"⟩], [⟨10, 1, "M", 1⟩], [c4Order]⟩,
    ⟨some 100, some 0⟩, TG.UserSess.idle⟩

/-- World after the second location selection. -/
def c4W3 : TG.World :=
  ⟨⟨[⟨1, 1, none, "content"⟩], [⟨10, 1, "M", 1⟩], [c4Order]⟩,
    ⟨some 100, some 0⟩, TG.UserSess.waitingPayment c4Data⟩

/-- World after the second settlement: the same on-chain transaction has
funded two orders. -/
def c4W4 : TG.World :=
  ⟨⟨[⟨1, 1, none, "content"⟩], [⟨10, 1, "M", 0⟩], [c4Order, c4Order]⟩,
    ⟨some 100, some 0⟩, TG.UserSess.idle⟩

/-! Helper lemmas (shared by several claim theorems). -/

/-- Reading back the updated location: `update_location_quantity` shifts
the quantity of every row with the matching id and leaves the rest, so
`get_location` afterwards returns the shifted row. -/
theorem tg_find_map_update (locs : List TG.Location) (lid : Nat) (delta : Int) :
    (locs.map fun l =>
        if l.id == lid then { l with quantity := l.quantity + delta } else l).find?
      (fun l => l.id == lid)
      = (locs.find? fun l => l.id == lid).map
          fun l => { l with quantity := l.quantity + delta } := by
  induction locs with
  | nil => rfl
  | cons a as ih =>
      by_cases h : a.id = lid
      · have hb : (a.id == lid) = true := by simpa using h
        simp only [List.map_cons, if_pos hb, List.find?_cons]
        rw [hb]
        rfl
      · have hb : (a.id == lid) = false := by simpa using h
        simp only [List.map_cons, if_neg (by simp [hb] : ¬ ((a.id == lid) = true)),
          List.find?_cons]
        rw [hb]
        exact ih

/-- `get_location` after `update_location_quantity` at the same id. -/
theorem tg_get_location_update (db : TG.DB) (lid : Nat) (delta : Int) :
    TG.get_location (TG.update_location_quantity db lid delta) lid
      = (TG.get_location db lid).map
          fun l => { l with quantity := l.quantity + delta } := by
  simpa [TG.get_location, TG.update_location_quantity] using
    tg_find_map_update db.locations lid delta

/-- tg_bot.py's `check_payment` finishes the FSM state on every path:
the resulting session is always idle. -/
theorem tg_check_payment_sess_idle (db : TG.DB) (u : Nat) (d : TG.OrderData)
    (now : Int) (resp : Except String AddrData) (k : Bool) (f : StmtFail) :
    (TG.check_payment db u d now resp k f).2.1 = TG.UserSess.idle := by
  cases k <;>
    cases h : check_bitcoin_payment now d.payment_address d.amount_btc resp <;>
      rcases f with ⟨fu, fi⟩ <;> cases fu <;> cases fi <;>
        simp [TG.check_payment, h]

/-- One `check_payment` call adds at most one order row. -/
theorem tg_check_payment_orders_length (db : TG.DB) (u : Nat) (d : TG.OrderData)
    (now : Int) (resp : Except String AddrData) (k : Bool) (f : StmtFail) :
    (TG.check_payment db u d now resp k f).1.orders.length ≤ db.orders.length + 1 := by
  cases k <;>
    cases h : check_bitcoin_payment now d.payment_address d.amount_btc resp <;>
      rcases f with ⟨fu, fi⟩ <;> cases fu <;> cases fi <;>
        simp [TG.check_payment, h, TG.insert_order, TG.update_location_quantity]

/-- A plain text message is not dispatched to any state-changing handler
while no FSM state is set. -/
theorem tg_handle_idle_message (db : TG.DB) (cache : RateCache) (u : Nat)
    (m : String) (now : Int) (ro : Except String ℚ) (bo : Except String AddrData)
    (k : Bool) (f : StmtFail) :
    TG.handle_user_event ⟨db, cache, TG.UserSess.idle⟩ u
        ⟨TG.Event.message m, now, ro, bo, k, f⟩
      = ⟨db, cache, TG.UserSess.idle⟩ := rfl

/-- From an idle session, a trace of plain text messages changes
nothing. -/
theorem tg_runEvents_idle_textOnly (db : TG.DB) (cache : RateCache) (u : Nat)
    (evs : List TG.EventCtx) (h : TG.textOnly evs) :
    TG.runEvents ⟨db, cache, TG.UserSess.idle⟩ u evs
      = ⟨db, cache, TG.UserSess.idle⟩ := by
  induction evs with
  | nil => rfl
  | cons c cs ih =>
      obtain ⟨m, hm⟩ := h c (List.mem_cons_self c cs)
      obtain ⟨ev, now, ro, bo, k, f⟩ := c
      cases hm
      have step : TG.handle_user_event ⟨db, cache, TG.UserSess.idle⟩ u
          ⟨TG.Event.message m, now, ro, bo, k, f⟩ = ⟨db, cache, TG.UserSess.idle⟩ := rfl
      calc TG.runEvents ⟨db, cache, TG.UserSess.idle⟩ u
              (⟨TG.Event.message m, now, ro, bo, k, f⟩ :: cs)
        _ = TG.runEvents ⟨db, cache, TG.UserSess.idle⟩ u cs := by
              simp [TG.runEvents, List.foldl_cons, step]
        _ = ⟨db, cache, TG.UserSess.idle⟩ :=
              ih fun e he => h e (List.mem_cons_of_mem _ he)

/-- Transactions older than the window can be dropped without changing
the verification result. -/
theorem any_filter_recent_eq (now : Int) (addr : String) (amount : ℚ)
    (txs : List AddrTx) :
    (txs.any fun tx =>
        if 7200 < now - tx.time then false
        else tx.out.any fun o =>
          o.addr == addr && decide (amount ≤ o.value / 100000000))
      = ((txs.filter fun tx => decide (now - tx.time ≤ 7200)).any fun tx =>
          if 7200 < now - tx.time then false
          else tx.out.any fun o =>
            o.addr == addr && decide (amount ≤ o.value / 100000000)) := by
  induction txs with
  | nil => rfl
  | cons a as ih =>
      by_cases h : 7200 < now - a.time
      · have h' : ¬ (now - a.time ≤ 7200) := by omega
        rw [List.any_cons, if_pos h, List.filter_cons,
          if_neg (by simpa using h'), Bool.false_or]
        exact ih
      · have h' : now - a.time ≤ 7200 := by omega
        rw [List.any_cons, if_neg h, List.filter_cons,
          if_pos (by simpa using h'), List.any_cons, if_neg h, ih]

/-! Claim theorems. -/

/-- Claim C5: payment verification returns true iff the oracle's
transaction list contains a transaction no older than 7200 seconds with
an output to the queried address whose value, divided by 10^8 (satoshi
to BTC), is at least the expected amount; and transactions strictly
older than the window never count — filtering them out does not change
the result. -/
theorem c5_verify_spec (now : Int) (addr : String) (amount : ℚ) (d : AddrData) :
    (check_bitcoin_payment now addr amount (Except.ok d) = true ↔
      ∃ tx ∈ d.txs, now - tx.time ≤ 7200 ∧
        ∃ o ∈ tx.out, o.addr = addr ∧ amount ≤ o.value / 100000000) ∧
    check_bitcoin_payment now addr amount (Except.ok d)
      = check_bitcoin_payment now addr amount
          (Except.ok ⟨d.total_received,
            d.txs.filter fun tx => decide (now - tx.time ≤ 7200)⟩) := by
  constructor
  · constructor
    · intro htrue
      obtain ⟨tx, htx, hcond⟩ := List.any_eq_true.1 htrue
      by_cases hold : 7200 < now - tx.time
      · simp [hold] at hcond
      · rw [if_neg hold] at hcond
        obtain ⟨o, ho, hprop⟩ := List.any_eq_true.1 hcond
        rw [Bool.and_eq_true] at hprop
        obtain ⟨haddr, hval⟩ := hprop
        exact ⟨tx, htx, by omega,
          o, ho, by simpa using haddr, by simpa using hval⟩
    · rintro ⟨tx, htx, hrecent, o, ho, haddr, hval⟩
      refine List.any_eq_true.2 ⟨tx, htx, ?_⟩
      rw [if_neg (by omega)]
      exact List.any_eq_true.2 ⟨o, ho, by simp [haddr, hval]⟩
  · simpa [check_bitcoin_payment] using
      any_filter_recent_eq now addr amount d.txs

/-- Claim C5 witness: the specification instantiated at a concrete
reply containing one fresh qualifying transaction. -/
theorem c5_witness :
    check_bitcoin_payment 0 "W" 1
        (Except.ok ⟨2, [⟨0, [⟨"W", 200000000⟩]⟩]⟩) = true := by
  refine (c5_verify_spec 0 "W" 1 ⟨2, [⟨0, [⟨"W", 200000000⟩]⟩]⟩).1.2 ?_
  exact ⟨⟨0, [⟨"W", 200000000⟩]⟩, by simp, by norm_num,
    ⟨"W", 200000000⟩, by simp, rfl, by norm_num⟩

/-- Claim C10: payment verification is total over every oracle behavior:
an oracle failure (network error, malformed or incomplete reply, all
modelled as `Except.error`) yields `false`, exactly the result produced
by a well-formed reply carrying no transactions — an outage is
indistinguishable from a payment that has not arrived. -/
theorem c10_verify_total (now : Int) (addr : String) (amount : ℚ)
    (e : String) (tr : ℚ) :
    check_bitcoin_payment now addr amount (Except.error e) = false ∧
    check_bitcoin_payment now addr amount (Except.error e)
      = check_bitcoin_payment now addr amount (Except.ok ⟨tr, []⟩) := ⟨rfl, rfl⟩

/-- Claim C7 (code behavior at the failing input): when verification
finds no qualifying payment, `check_payment` leaves the database
untouched and reports "not detected" — but the resulting session is
idle, not `waiting_payment`: `state.finish()` in the `finally` block has
discarded the pending order, so a repeated check message is no longer
routed to the payment handler. -/
theorem c7_state_cleared_on_failed_check (db : TG.DB) (u : Nat)
    (d : TG.OrderData) (now : Int) (resp : Except String AddrData) (f : StmtFail)
    (h : check_bitcoin_payment now d.payment_address d.amount_btc resp = false) :
    TG.check_payment db u d now resp true f
      = (db, TG.UserSess.idle, PayOutcome.notDetected) := by
  simp [TG.check_payment, h]

/-- Claim C7 witness: the failed-check behavior at a concrete pending
order with the oracle unreachable. -/
theorem c7_witness :
    TG.check_payment ⟨[], [⟨10, 1, "M", 1⟩], []⟩ 7 ⟨1, 10, "W", 1, 100, 100, "c"⟩
        0 (Except.error "oracle down") true ⟨false, false⟩
      = (⟨[], [⟨10, 1, "M", 1⟩], []⟩, TG.UserSess.idle, PayOutcome.notDetected) :=
  c7_state_cleared_on_failed_check ⟨[], [⟨10, 1, "M", 1⟩], []⟩ 7
    ⟨1, 10, "W", 1, 100, 100, "c"⟩ 0 (Except.error "oracle down") ⟨false, false⟩ rfl

/-- Claim C8 counterexample: in the `waiting_product_name` step, the
input "/cancel" is consumed as the product name and the flow advances;
no input whatsoever brings this step back to idle, so no cancel command
exists for it. -/
theorem c8_counterexample :
    (BotPy.adminTransition BotPy.AdminStep.waitingProductName BotPy.emptyAdminData
        ⟨"/cancel", none⟩ true
      = (BotPy.AdminStep.waitingProductDescription,
          { BotPy.emptyAdminData with name := some "/cancel" }, false)) ∧
    ¬ ∃ inp : BotPy.TextInput,
        (BotPy.adminTransition BotPy.AdminStep.waitingProductName
            BotPy.emptyAdminData inp true).1 = BotPy.AdminStep.idle := by
  refine ⟨rfl, ?_⟩
  rintro ⟨inp, h⟩
  simp [BotPy.adminTransition, BotPy.add_product_name] at h

/-- Claim C8 (amended): no cancel command exists.  In every intermediate
step of the add-product flow, any input is consumed as that step's field
(the price step re-prompts on invalid input); none of these steps ever
returns the session to idle.  (The only returns to idle are the terminal
commit steps, a DB-connection failure there, and — in the payment flow —
the check handler, which clears the state on every message.) -/
theorem c8_amended (d : BotPy.AdminData) (inp : BotPy.TextInput) (k : Bool) :
    (BotPy.adminTransition BotPy.AdminStep.waitingProductName d inp k
      = (BotPy.AdminStep.waitingProductDescription,
          { d with name := some inp.text }, false)) ∧
    (BotPy.adminTransition BotPy.AdminStep.waitingProductDescription d inp k
      = (BotPy.AdminStep.waitingProductPrice,
          { d with description := some inp.text }, false)) ∧
    ((BotPy.adminTransition BotPy.AdminStep.waitingProductPrice d inp k).1
        = BotPy.AdminStep.waitingProductPrice ∨
     (BotPy.adminTransition BotPy.AdminStep.waitingProductPrice d inp k).1
        = BotPy.AdminStep.waitingProductContent) ∧
    (BotPy.adminTransition BotPy.AdminStep.waitingProductContent d inp k
      = (BotPy.AdminStep.waitingProductLocations,
          { d with content := some inp.text }, false)) := by
  refine ⟨rfl, rfl, ?_, rfl⟩
  obtain ⟨t, nv⟩ := inp
  cases nv with
  | none => exact Or.inl rfl
  | some p =>
      by_cases h : p ≤ 0
      · exact Or.inl (by simp [BotPy.adminTransition, BotPy.add_product_price, h])
      · exact Or.inr (by simp [BotPy.adminTransition, BotPy.add_product_price, h])

/-- Claim C9: the price step of the add-product flow re-prompts on a
non-numeric input or a value not greater than 0, keeping the step, all
previously collected fields and the storage untouched; a subsequent
valid price advances to the content step with the earlier fields
intact. -/
theorem c9_price_validation (d : BotPy.AdminData) (t t' : String) (p : ℚ) :
    (BotPy.add_product_price d ⟨t, none⟩
      = (BotPy.AdminStep.waitingProductPrice, d, false)) ∧
    (p ≤ 0 → BotPy.add_product_price d ⟨t, some p⟩
      = (BotPy.AdminStep.waitingProductPrice, d, false)) ∧
    (0 < p → BotPy.add_product_price d ⟨t', some p⟩
      = (BotPy.AdminStep.waitingProductContent, { d with price := some p }, false)) ∧
    (BotPy.adminTransition BotPy.AdminStep.waitingProductPrice d ⟨t, none⟩ true
      = (BotPy.AdminStep.waitingProductPrice, d, false)) := by
  refine ⟨rfl, ?_, ?_, rfl⟩
  · intro h
    simp [BotPy.add_product_price, h]
  · intro h
    simp [BotPy.add_product_price, not_le.2 h]

/-- Claim C9 witness: the price step at concrete inputs — "abc" (parse
failure) and -3 re-prompt with the collected data kept, and 2 then
advances carrying that data. -/
theorem c9_witness :
    (BotPy.add_product_price ⟨some 4, some "n", some "d", none, none⟩ ⟨"abc", none⟩
      = (BotPy.AdminStep.waitingProductPrice,
          ⟨some 4, some "n", some "d", none, none⟩, false)) ∧
    (BotPy.add_product_price ⟨some 4, some "n", some "d", none, none⟩ ⟨"-3", some (-3)⟩
      = (BotPy.AdminStep.waitingProductPrice,
          ⟨some 4, some "n", some "d", none, none⟩, false)) ∧
    (BotPy.add_product_price ⟨some 4, some "n", some "d", none, none⟩ ⟨"2", some 2⟩
      = (BotPy.AdminStep.waitingProductContent,
          ⟨some 4, some "n", some "d", some 2, none⟩, false)) := by
  have h := c9_price_validation ⟨some 4, some "n", some "d", none, none⟩ "abc" "2" (-3)
  have h2 := c9_price_validation ⟨some 4, some "n", some "d", none, none⟩ "-3" "2" 2
  exact ⟨h.1, h.2.1 (by norm_num), h2.2.2.1 (by norm_num)⟩

/-- Claim C6: a rate fetched at time T is reused for every request less
than 300 seconds later without calling the oracle; once the window has
expired the oracle is called: on success the new rate is returned and
cached with the current time, on failure no rate is returned (never a
guess or the stale value) and the cache is left unchanged. -/
theorem c6_rate_cache (now : Int) (oracle : Except String ℚ) (c : RateCache) :
    (rateFresh now c → get_bitcoin_rate now oracle c = ⟨c.rate, c, false⟩) ∧
    (¬ rateFresh now c →
      (get_bitcoin_rate now oracle c).oracleCalled = true ∧
      (∀ r, oracle = Except.ok r →
        get_bitcoin_rate now oracle c = ⟨some r, ⟨some r, some now⟩, true⟩) ∧
      (∀ e, oracle = Except.error e →
        get_bitcoin_rate now oracle c = ⟨none, c, true⟩)) := by
  obtain ⟨cr, lu⟩ := c
  cases lu with
  | none =>
      refine ⟨?_, ?_⟩
      · intro hf
        unfold rateFresh at hf
        obtain ⟨t, ht, -⟩ := hf
        exact absurd ht (by simp)
      · intro _
        refine ⟨?_, ?_, ?_⟩
        · cases oracle <;> rfl
        · intro r hr
          cases oracle with
          | ok r0 => cases hr; rfl
          | error e0 => exact absurd hr (by simp)
        · intro e he
          cases oracle with
          | ok r0 => exact absurd he (by simp)
          | error e0 => cases he; rfl
  | some t =>
      by_cases hlt : now - t < 300
      · refine ⟨fun _ => by simp [get_bitcoin_rate, hlt], fun hnf => ?_⟩
        exact absurd ⟨t, rfl, hlt⟩ hnf
      · refine ⟨?_, ?_⟩
        · intro hf
          unfold rateFresh at hf
          obtain ⟨t', ht', hlt'⟩ := hf
          simp only [Option.some.injEq] at ht'
          omega
        · intro _
          refine ⟨?_, ?_, ?_⟩
          · cases oracle <;> simp [get_bitcoin_rate, hlt]
          · intro r hr
            cases oracle with
            | ok r0 => cases hr; simp [get_bitcoin_rate, hlt]
            | error e0 => exact absurd hr (by simp)
          · intro e he
            cases oracle with
            | ok r0 => exact absurd he (by simp)
            | error e0 => cases he; simp [get_bitcoin_rate, hlt]

/-- Claim C6 witness: the specification instantiated concretely — a
cache refreshed at time 0 is reused at time 100 without an oracle call
even though the oracle is down, and at time 400 the expired cache
triggers a call whose failure returns no rate and leaves the cache as
it was. -/
theorem c6_witness :
    get_bitcoin_rate 100 (Except.error "down") ⟨some 5, some 0⟩
        = ⟨some 5, ⟨some 5, some 0⟩, false⟩ ∧
    get_bitcoin_rate 400 (Except.error "down") ⟨some 5, some 0⟩
        = ⟨none, ⟨some 5, some 0⟩, true⟩ := by
  constructor
  · exact (c6_rate_cache 100 (Except.error "down") ⟨some 5, some 0⟩).1
      ⟨0, rfl, by norm_num⟩
  · refine ((c6_rate_cache 400 (Except.error "down") ⟨some 5, some 0⟩).2 ?_).2.2
      "down" rfl
    rintro ⟨t, ht, hlt⟩
    simp only [Option.some.injEq] at ht
    omega

/-- A concrete qualifying payment: one fresh transaction paying 2 BTC to
address "W" verifies an expected amount of 1 BTC. -/
theorem pay_w_ok :
    check_bitcoin_payment 0 "W" 1
        (Except.ok ⟨2, [⟨0, [⟨"W", 200000000⟩]⟩]⟩) = true := by
  norm_num [check_bitcoin_payment]

/-- Claim C1 counterexample: a settlement against a location whose
quantity is already 0 — a verified payment decrements the quantity to -1
and inserts an order row anyway: no availability re-check happens inside
the settlement transaction, the stored quantity goes negative, and the
orders created against the location exceed the quantity it started
with. -/
theorem c1_counterexample :
    TG.check_payment ⟨[], [⟨10, 1, "M", 0⟩], []⟩ 7 ⟨1, 10, "W", 1, 100, 100, "c"⟩ 0
        (Except.ok ⟨2, [⟨0, [⟨"W", 200000000⟩]⟩]⟩) true ⟨false, false⟩
      = (⟨[], [⟨10, 1, "M", -1⟩], [⟨1, 10, 7, "W", 1, 100, 100, "c", true⟩]⟩,
          TG.UserSess.idle, PayOutcome.settled) := by
  simp [TG.check_payment, pay_w_ok, TG.update_location_quantity, TG.insert_order,
    TG.mkOrder]

/-- Claim C1 (amended): the settlement performs no availability
re-check — whenever the payment verifies and no statement fails, the
location's quantity is decremented by exactly one and one order row is
inserted regardless of the current quantity; the only `quantity > 0`
check of the purchase flow happens earlier, at location selection, whose
transaction ends before the payment wait. -/
theorem c1_amended :
    (∀ (db : TG.DB) (u : Nat) (d : TG.OrderData) (now : Int)
        (resp : Except String AddrData) (l : TG.Location),
      check_bitcoin_payment now d.payment_address d.amount_btc resp = true →
      TG.get_location db d.location_id = some l →
      TG.get_location (TG.check_payment db u d now resp true ⟨false, false⟩).1
          d.location_id
          = some { l with quantity := l.quantity - 1 } ∧
        (TG.check_payment db u d now resp true ⟨false, false⟩).1.orders
          = db.orders ++ [TG.mkOrder u d]) ∧
    (∀ (w : TG.World) (lid : Nat) (now : Int) (ro : Except String ℚ) (k : Bool)
        (l : TG.Location),
      TG.get_location w.db lid = some l → l.quantity ≤ 0 →
      TG.process_location_selection w lid now ro k = w) := by
  constructor
  · intro db u d now resp l hpaid hloc
    have hset : (TG.check_payment db u d now resp true ⟨false, false⟩).1
        = TG.insert_order (TG.update_location_quantity db d.location_id (-1))
            (TG.mkOrder u d) := by
      simp [TG.check_payment, hpaid]
    constructor
    · rw [hset]
      have h2 : TG.get_location
          (TG.insert_order (TG.update_location_quantity db d.location_id (-1))
            (TG.mkOrder u d)) d.location_id
          = TG.get_location (TG.update_location_quantity db d.location_id (-1))
              d.location_id := rfl
      rw [h2, tg_get_location_update, hloc]
      simp [Int.sub_eq_add_neg]
    · rw [hset]
      rfl
  · intro w lid now ro k l hl hq
    cases k with
    | false => rfl
    | true => simp [TG.process_location_selection, hl, hq]

/-- Claim C1 witness: the amended claim at concrete inputs — a verified
settlement against quantity 5 yields quantity 4 and one order, and a
selection against quantity 0 is rejected without any change. -/
theorem c1_witness :
    (TG.get_location
        (TG.check_payment ⟨[], [⟨10, 1, "M", 5⟩], []⟩ 7
          ⟨1, 10, "W", 1, 100, 100, "c"⟩ 0
          (Except.ok ⟨2, [⟨0, [⟨"W", 200000000⟩]⟩]⟩) true ⟨false, false⟩).1 10
        = some ⟨10, 1, "M", 4⟩ ∧
      (TG.check_payment ⟨[], [⟨10, 1, "M", 5⟩], []⟩ 7
          ⟨1, 10, "W", 1, 100, 100, "c"⟩ 0
          (Except.ok ⟨2, [⟨0, [⟨"W", 200000000⟩]⟩]⟩) true ⟨false, false⟩).1.orders
        = [TG.mkOrder 7 ⟨1, 10, "W", 1, 100, 100, "c"⟩]) ∧
    TG.process_location_selection
        ⟨⟨[], [⟨10, 1, "M", 0⟩], []⟩, ⟨none, none⟩, TG.UserSess.idle⟩ 10 0
        (Except.ok 100) true
      = ⟨⟨[], [⟨10, 1, "M", 0⟩], []⟩, ⟨none, none⟩, TG.UserSess.idle⟩ := by
  have h := c1_amended.1 ⟨[], [⟨10, 1, "M", 5⟩], []⟩ 7 ⟨1, 10, "W", 1, 100, 100, "c"⟩
    0 (Except.ok ⟨2, [⟨0, [⟨"W", 200000000⟩]⟩]⟩) ⟨10, 1, "M", 5⟩ pay_w_ok rfl
  refine ⟨⟨?_, h.2⟩, ?_⟩
  · rw [h.1]
    norm_num
  · exact c1_amended.2 ⟨⟨[], [⟨10, 1, "M", 0⟩], []⟩, ⟨none, none⟩, TG.UserSess.idle⟩
      10 0 (Except.ok 100) true ⟨10, 1, "M", 0⟩ rfl (by norm_num)

/-- Claim C2 counterexample: in bot.py's settlement the decrement and
the order insert are NOT atomic — with the payment verified and the
`INSERT` failing after the autocommitted `UPDATE`, re-querying shows the
quantity decremented from 5 to 4 while no order row exists for the
attempt. -/
theorem c2_counterexample :
    BotPy.check_payment ⟨[⟨1, 1, "c"⟩], [⟨10, 1, "M", 5⟩], []⟩ 7 ⟨1, 10, "W", 1⟩ 0
        (Except.ok ⟨2, [⟨0, [⟨"W", 200000000⟩]⟩]⟩) true ⟨false, true⟩
      = (⟨[⟨1, 1, "c"⟩], [⟨10, 1, "M", 4⟩], []⟩, BotPy.UserSess.idle,
          PayOutcome.settleError) := by
  simp [BotPy.check_payment, pay_w_ok, BotPy.lookup_content, BotPy.get_location,
    BotPy.get_product, BotPy.update_location_quantity]

/-- Claim C2 (amended): tg_bot.py's settlement IS atomic — for every
input, either the database is observably unchanged (both the locations
and the orders tables) or exactly the quantity decrement together with
the one order insert took effect; bot.py's settlement, with no
transaction wrapper, does not have this property (see the
counterexample). -/
theorem c2_amended (db : TG.DB) (u : Nat) (d : TG.OrderData) (now : Int)
    (resp : Except String AddrData) (k : Bool) (f : StmtFail) :
    ((TG.check_payment db u d now resp k f).1.locations = db.locations ∧
      (TG.check_payment db u d now resp k f).1.orders = db.orders) ∨
    ((TG.check_payment db u d now resp k f).1.locations
        = (TG.update_location_quantity db d.location_id (-1)).locations ∧
      (TG.check_payment db u d now resp k f).1.orders
        = db.orders ++ [TG.mkOrder u d]) := by
  cases k <;>
    cases h : check_bitcoin_payment now d.payment_address d.amount_btc resp <;>
      rcases f with ⟨fu, fi⟩ <;> cases fu <;> cases fi <;>
        simp [TG.check_payment, h, TG.insert_order, TG.update_location_quantity]

/-- Claim C3: settlement is idempotent at the dispatcher level — after
any invocation of the payment-check handler (which finishes the FSM
state on every path), a second plain message is no longer routed to the
handler, so it creates no order, decrements nothing and changes nothing
at all. -/
theorem c3_idempotent (db : TG.DB) (cache : RateCache) (d : TG.OrderData)
    (u : Nat) (m₁ m₂ : String) (n₁ n₂ : Int) (ro₁ ro₂ : Except String ℚ)
    (bo₁ bo₂ : Except String AddrData) (k₁ k₂ : Bool) (f₁ f₂ : StmtFail) :
    TG.handle_user_event
        (TG.handle_user_event ⟨db, cache, TG.UserSess.waitingPayment d⟩ u
          ⟨TG.Event.message m₁, n₁, ro₁, bo₁, k₁, f₁⟩) u
        ⟨TG.Event.message m₂, n₂, ro₂, bo₂, k₂, f₂⟩
      = TG.handle_user_event ⟨db, cache, TG.UserSess.waitingPayment d⟩ u
          ⟨TG.Event.message m₁, n₁, ro₁, bo₁, k₁, f₁⟩ := by
  have hs := tg_check_payment_sess_idle db u d n₁ bo₁ k₁ f₁
  have h1 : TG.handle_user_event ⟨db, cache, TG.UserSess.waitingPayment d⟩ u
      ⟨TG.Event.message m₁, n₁, ro₁, bo₁, k₁, f₁⟩
      = ⟨(TG.check_payment db u d n₁ bo₁ k₁ f₁).1, cache, TG.UserSess.idle⟩ := by
    show (⟨(TG.check_payment db u d n₁ bo₁ k₁ f₁).1, cache,
      (TG.check_payment db u d n₁ bo₁ k₁ f₁).2.1⟩ : TG.World) = _
    rw [hs]
  rw [h1]
  rfl

/-- The concrete transaction of `c4Resp` verifies an expected payment of
1 BTC to the shop wallet. -/
theorem pay_c4_ok : check_bitcoin_payment 0 TG.BITCOIN_WALLET 1 c4Resp = true := by
  norm_num [check_bitcoin_payment, c4Resp]

/-- First location selection of the concrete double-settlement trace. -/
theorem c4_step1 :
    TG.handle_user_event c4W0 7 (c4Ctx (TG.Event.locationCallback 10)) = c4W1 := by
  simp [TG.handle_user_event, TG.process_location_selection, TG.get_location,
    TG.get_product, get_bitcoin_rate, c4W0, c4W1, c4DB, c4Ctx, c4Data]

/-- First settlement of the concrete trace: one unit sold, one order. -/
theorem c4_step2 :
    TG.handle_user_event c4W1 7 (c4Ctx (TG.Event.message "check")) = c4W2 := by
  simp [TG.handle_user_event, TG.check_payment, pay_c4_ok, c4W1, c4W2, c4DB,
    c4Ctx, c4Data, c4Order, TG.update_location_quantity, TG.insert_order, TG.mkOrder]

/-- Second location selection: the session state was cleared, so the
callback is dispatched again; stock is still positive and the cached
rate is fresh. -/
theorem c4_step3 :
    TG.handle_user_event c4W2 7 (c4Ctx (TG.Event.locationCallback 10)) = c4W3 := by
  simp [TG.handle_user_event, TG.process_location_selection, TG.get_location,
    TG.get_product, get_bitcoin_rate, c4W2, c4W3, c4Ctx, c4Data]

/-- Second settlement of the concrete trace, verified against the very
same oracle transaction. -/
theorem c4_step4 :
    TG.handle_user_event c4W3 7 (c4Ctx (TG.Event.message "check")) = c4W4 := by
  simp [TG.handle_user_event, TG.check_payment, pay_c4_ok, c4W3, c4W4,
    c4Ctx, c4Data, c4Order, TG.update_location_quantity, TG.insert_order, TG.mkOrder]

/-- Claim C4 counterexample: with one single qualifying on-chain
transaction (`c4Resp`, unchanged through the whole trace), the event
sequence select-check-select-check produces TWO settled orders and
decrements the stock twice — nothing records the transaction as spent,
so a second purchase attempt verified against the same payment settles
again. -/
theorem c4_counterexample :
    (TG.runEvents c4W0 7
        [c4Ctx (TG.Event.locationCallback 10), c4Ctx (TG.Event.message "check"),
          c4Ctx (TG.Event.locationCallback 10), c4Ctx (TG.Event.message "check")]).db.orders
      = [c4Order, c4Order] ∧
    (TG.runEvents c4W0 7
        [c4Ctx (TG.Event.locationCallback 10), c4Ctx (TG.Event.message "check"),
          c4Ctx (TG.Event.locationCallback 10), c4Ctx (TG.Event.message "check")]).db.locations
      = [⟨10, 1, "M", 0⟩] := by
  have hrun : TG.runEvents c4W0 7
      [c4Ctx (TG.Event.locationCallback 10), c4Ctx (TG.Event.message "check"),
        c4Ctx (TG.Event.locationCallback 10), c4Ctx (TG.Event.message "check")]
      = c4W4 := by
    simp only [TG.runEvents, List.foldl_cons, List.foldl_nil, c4_step1, c4_step2,
      c4_step3, c4_step4]
  rw [hrun]
  exact ⟨rfl, rfl⟩

/-- Claim C4 (amended): within one `waiting_payment` session the guard
does hold — the settlement handler finishes the FSM state on its first
invocation, so a trace of plain messages (however many further "check"
taps, against any oracle behavior) settles at most once: at most one
order row is ever added.  A second settlement from the same payment is
only reachable through a NEW location selection, because no transaction
identifier is ever recorded (see the counterexample). -/
theorem c4_amended (db : TG.DB) (cache : RateCache) (d : TG.OrderData) (u : Nat)
    (evs : List TG.EventCtx) (h : TG.textOnly evs) :
    (TG.runEvents ⟨db, cache, TG.UserSess.waitingPayment d⟩ u evs).db.orders.length
      ≤ db.orders.length + 1 := by
  cases evs with
  | nil => simp [TG.runEvents]
  | cons c cs =>
      obtain ⟨m, hm⟩ := h c (List.mem_cons_self c cs)
      obtain ⟨ev, now, ro, bo, k, f⟩ := c
      cases hm
      have hstep : TG.handle_user_event ⟨db, cache, TG.UserSess.waitingPayment d⟩ u
          ⟨TG.Event.message m, now, ro, bo, k, f⟩
          = ⟨(TG.check_payment db u d now bo k f).1, cache, TG.UserSess.idle⟩ := by
        show (⟨(TG.check_payment db u d now bo k f).1, cache,
          (TG.check_payment db u d now bo k f).2.1⟩ : TG.World) = _
        rw [tg_check_payment_sess_idle]
      have hrest : TG.runEvents
          ⟨(TG.check_payment db u d now bo k f).1, cache, TG.UserSess.idle⟩ u cs
          = ⟨(TG.check_payment db u d now bo k f).1, cache, TG.UserSess.idle⟩ :=
        tg_runEvents_idle_textOnly _ _ _ _ fun e he => h e (List.mem_cons_of_mem _ he)
      calc (TG.runEvents ⟨db, cache, TG.UserSess.waitingPayment d⟩ u
              (⟨TG.Event.message m, now, ro, bo, k, f⟩ :: cs)).db.orders.length
          = (TG.runEvents ⟨(TG.check_payment db u d now bo k f).1, cache,
              TG.UserSess.idle⟩ u cs).db.orders.length := by
            simp [TG.runEvents, List.foldl_cons, hstep]
        _ = (TG.check_payment db u d now bo k f).1.orders.length := by rw [hrest]
        _ ≤ db.orders.length + 1 := tg_check_payment_orders_length db u d now bo k f

/-- Claim C4 witness: the amended bound applied to a concrete
one-message trace from a pending session over an empty order table. -/
theorem c4_witness :
    (TG.runEvents ⟨⟨[], [], []⟩, ⟨none, none⟩,
        TG.UserSess.waitingPayment ⟨1, 10, "W", 1, 100, 100, "c"⟩⟩ 7
        [⟨TG.Event.message "again", 0, Except.ok 1, Except.error "e", true,
          ⟨false, false⟩⟩]).db.orders.length ≤ 1 :=
  c4_amended ⟨[], [], []⟩ ⟨none, none⟩ ⟨1, 10, "W", 1, 100, 100, "c"⟩ 7
    [⟨TG.Event.message "again", 0, Except.ok 1, Except.error "e", true,
      ⟨false, false⟩⟩]
    (by
      intro c hc
      rw [List.mem_singleton] at hc
      subst hc
      exact ⟨"again", rfl⟩)
